import Mathlib

/-!
Verification of the SkillSync internship recommender (`app.py`).

The core under study is the function `recommend_internships(user_skills,
sector, state, district, mode, top_n)` (app.py lines 149-179) operating on a
pandas DataFrame loaded from a CSV.  We embed the DataFrame as a `Table`
(column names plus rows of cells), and the pandas operations the function
uses — column-name stripping, `str.contains(..., case=False, na=False)`
boolean filtering, `fillna("").astype(str)`, column assignment,
`sort_values`, `head` — as executable Lean functions.  Failures that pandas
or scikit-learn raise (`KeyError` for a missing column referenced by
indexing or by `sort_values`, `ValueError: empty vocabulary` when
`TfidfVectorizer.fit_transform` finds no token in the corpus) are modelled
with `Except String`.

The numeric TF-IDF/cosine computation of scikit-learn
(`cosine_similarity(vectorizer.transform([user_skills]), skill_matrix)`)
is a deterministic function of the corpus and the query string; its exact
floating-point values are irrelevant to every claim below, so the pipeline
takes it as an explicit parameter `score : ScoreFn`.  What the claims do
depend on — the default tokenizer (lowercase, word runs of length ≥ 2) and
the fit-time empty-vocabulary check — is embedded concretely.
-/

/-- One DataFrame cell: missing (`NaN`), a string, an integer, or a float
(modelled as a rational) such as an assigned similarity score. -/
inductive Cell where
  | na : Cell
  | str (s : String) : Cell
  | int (n : Int) : Cell
  | rat (q : ℚ) : Cell
deriving DecidableEq, Repr

/-- A DataFrame row, positionally aligned with the column-name list. -/
abbrev Row := List Cell

/-- The embedding of a pandas DataFrame: column names and rows. -/
structure Table where
  cols : List String
  rows : List Row
deriving DecidableEq, Repr

deriving instance DecidableEq for Except

/-- `pd.DataFrame()` — the empty result returned for an empty subset. -/
def emptyTable : Table := ⟨[], []⟩

/-- `df.copy()` (app.py line 150). -/
def Table.copy (t : Table) : Table := ⟨t.cols, t.rows⟩

/-- Index of the first column with the given name, as in pandas label
lookup; `none` models the `KeyError` case. -/
def Table.colIdx? (t : Table) (c : String) : Option Nat :=
  t.cols.findIdx? (· = c)

/-- `df.head n`. -/
def Table.head (t : Table) (n : Nat) : Table := ⟨t.cols, t.rows.take n⟩

/-- Python's `str.strip()`: drop whitespace from both ends. -/
def pyStrip (s : String) : String :=
  ⟨((s.toList.dropWhile Char.isWhitespace).reverse.dropWhile Char.isWhitespace).reverse⟩

/-- Python's `str.lower()` character-wise, over the character list. -/
def lowerList (l : List Char) : List Char := l.map Char.toLower

/-- `df_copy.columns = df_copy.columns.str.strip()` (app.py line 153). -/
def stripCols (t : Table) : Table := ⟨t.cols.map pyStrip, t.rows⟩

/-- `prefOf p l` decides whether `p` is an initial segment of `l`. -/
def prefOf : List Char → List Char → Bool
  | [], _ => true
  | _ :: _, [] => false
  | a :: as, b :: bs => a == b && prefOf as bs

/-- `substrOf p l` decides whether `p` occurs contiguously inside `l`. -/
def substrOf : List Char → List Char → Bool
  | p, [] => p.isEmpty
  | p, c :: t => prefOf p (c :: t) || substrOf p t

/-- Case-insensitive substring test: does `pat` occur inside `s` ignoring
case?  This embeds `s.str.contains(pat, case=False)` for patterns free of
regex metacharacters (pandas compiles `pat` as a regular expression; on a
metacharacter-free pattern regex search coincides with substring search). -/
def substrCI (pat s : String) : Bool :=
  substrOf (lowerList pat.toList) (lowerList s.toList)

/-- One cell under `.str.contains(pat, case=False, na=False)`: a missing
value yields `False` (`na=False`), a non-string value likewise (the `.str`
accessor maps it to `NaN`). -/
def cellContainsCI (c : Cell) (pat : String) : Bool :=
  match c with
  | .str s => substrCI pat s
  | _ => false

/-- Characters that are special in Python regular expressions.  `str.contains`
treats its pattern as a regex; the substring embedding above is exact
precisely when the pattern contains none of these. -/
def regexSpecial (c : Char) : Bool :=
  c = '.' || c = '^' || c = '$' || c = '*' || c = '+' || c = '?' ||
  c = '[' || c = ']' || c = '(' || c = ')' || c = '|' || c = '\\' ||
  c = Char.ofNat 123 || c = Char.ofNat 125

/-- A string that is a regex-literal: regex search for it is exactly
substring search. -/
def regexLiteral (s : String) : Bool := s.toList.all (fun c => !regexSpecial c)

/-- `df_copy[df_copy[col].str.contains(pat, case=False, na=False)]`
(app.py lines 157/159/161/163): selecting a missing column raises
`KeyError`; otherwise keep the rows whose cell matches. -/
def filterContains (t : Table) (col pat : String) : Except String Table :=
  match t.colIdx? col with
  | none => .error ("KeyError: " ++ col)
  | some i => .ok ⟨t.cols, t.rows.filter (fun r => cellContainsCI (r.getD i .na) pat)⟩

/-- One `if field != "Any": df_copy = df_copy[...]` step, threading a prior
failure through. -/
def filterStep (x : Except String Table) (col pat : String) : Except String Table :=
  match x with
  | .error e => .error e
  | .ok t => if pat = "Any" then .ok t else filterContains t col pat

/-- The filter block of `recommend_internships` (app.py lines 150-163):
copy, strip column names, then the four conditional filters in their fixed
order: sector, state, district, mode. -/
def applyFilters (sector state district mode : String) (df : Table) : Except String Table :=
  filterStep
    (filterStep
      (filterStep
        (filterStep (.ok (stripCols df.copy)) "Sector/Industry" sector)
        "State" state)
      "District" district)
    "Internship Mode" mode

/-- `fillna("").astype(str)` on one cell: missing becomes the empty string,
anything else is stringified. -/
def cellToStr : Cell → String
  | .na => ""
  | .str s => s
  | .int n => toString n
  | .rat q => toString q

/-- `df_copy["Required Skills"].fillna("").astype(str)` (app.py line 171):
the corpus handed to the vectorizer; a missing column raises `KeyError`. -/
def corpusOf (t : Table) : Except String (List String) :=
  match t.colIdx? "Required Skills" with
  | none => .error "KeyError: Required Skills"
  | some i => .ok (t.rows.map (fun r => cellToStr (r.getD i .na)))

/-- A word character for scikit-learn's default token pattern `\w\w+`. -/
def isWordChar (c : Char) : Bool := c.isAlphanum || c = '_'

/-- Splits a character list into its maximal runs of characters satisfying
`isWordChar`; `acc` holds the current run reversed. -/
def runsAux : List Char → List Char → List (List Char)
  | [], acc => if acc.isEmpty then [] else [acc.reverse]
  | c :: cs, acc =>
    if isWordChar c then runsAux cs (c :: acc)
    else if acc.isEmpty then runsAux cs [] else acc.reverse :: runsAux cs []

/-- Maximal runs of characters satisfying `isWordChar`. -/
def wordRuns (l : List Char) : List (List Char) := runsAux l []

/-- scikit-learn's default analyzer: lowercase, then tokens are maximal
word-character runs of length at least 2. -/
def tokenize (s : String) : List String :=
  ((wordRuns (lowerList s.toList)).filter (fun w => 2 ≤ w.length)).map (fun w => ⟨w⟩)

/-- The fit step of `TfidfVectorizer().fit_transform(corpus)` as far as
control flow is concerned: scikit-learn raises
`ValueError: empty vocabulary` when no document yields any token. -/
def fitVocabCheck (docs : List String) : Except String Unit :=
  if ((docs.map tokenize).flatten).isEmpty then
    .error "ValueError: empty vocabulary"
  else
    .ok ()

/-- The numeric part of the library pipeline,
`cosine_similarity(vectorizer.transform([user_skills]), skill_matrix).flatten()`:
a deterministic function from the corpus and the query to one score per
document.  Theorems below hold for every such function. -/
abbrev ScoreFn := List String → String → List ℚ

/-- A trivially admissible `ScoreFn` (all scores zero), used to instantiate
the pipeline on concrete inputs. -/
def zeroScore : ScoreFn := fun docs _ => docs.map (fun _ => (0 : ℚ))

/-- `df_copy[name] = vals` (app.py line 174): pandas overwrites an existing
column in place and otherwise appends a new one; a length mismatch between
the values and the index raises `ValueError`. -/
def assignColumn (t : Table) (name : String) (vals : List Cell) : Except String Table :=
  if vals.length = t.rows.length then
    match t.colIdx? name with
    | some i => .ok ⟨t.cols, (t.rows.zip vals).map (fun p => p.1.set i p.2)⟩
    | none => .ok ⟨t.cols ++ [name], (t.rows.zip vals).map (fun p => p.1 ++ [p.2])⟩
  else
    .error "ValueError: Length of values does not match length of index"

/-- Numeric view of a cell, for the sort keys.  The theorems about sorting
are stated for tables whose key cells are numeric (`int`/`rat`), matching
the dataset contract; other cells are given a junk value `0` here solely
for totality. -/
def cellVal : Cell → ℚ
  | .int n => (n : ℚ)
  | .rat q => q
  | _ => 0

/-- The numeric value a row carries in the named column (`0` junk when the
column is absent; every use below is guarded by column presence). -/
def colValD (t : Table) (c : String) (r : Row) : ℚ :=
  match t.colIdx? c with
  | some i => cellVal (r.getD i .na)
  | none => 0

/-- Lexicographic "greater or equal" on sort keys: strictly larger first
component, or equal first components and larger-or-equal second.  This is
the row order produced by
`sort_values(by=[k1, k2], ascending=False)`. -/
def lexGe (x y : ℚ × ℚ) : Prop :=
  y.1 < x.1 ∨ (x.1 = y.1 ∧ y.2 ≤ x.2)

instance : DecidableRel lexGe := fun x y => by
  unfold lexGe
  infer_instance

/-- Row comparison by a key function, descending lexicographically. -/
def rk (k : Row → ℚ × ℚ) (a b : Row) : Prop := lexGe (k a) (k b)

instance (k : Row → ℚ × ℚ) : DecidableRel (rk k) := fun a b => by
  unfold rk
  infer_instance

theorem lexGe_total (x y : ℚ × ℚ) : lexGe x y ∨ lexGe y x := by
  rcases lt_trichotomy x.1 y.1 with h | h | h
  · exact Or.inr (Or.inl h)
  · rcases le_total x.2 y.2 with h2 | h2
    · exact Or.inr (Or.inr ⟨h.symm, h2⟩)
    · exact Or.inl (Or.inr ⟨h, h2⟩)
  · exact Or.inl (Or.inl h)

theorem lexGe_trans (x y z : ℚ × ℚ) (hxy : lexGe x y) (hyz : lexGe y z) : lexGe x z := by
  rcases hxy with h1 | ⟨h1, h1'⟩
  · rcases hyz with h2 | ⟨h2, h2'⟩
    · exact Or.inl (h2.trans h1)
    · exact Or.inl (h2 ▸ h1)
  · rcases hyz with h2 | ⟨h2, h2'⟩
    · exact Or.inl (h1 ▸ h2)
    · exact Or.inr ⟨h1.trans h2, h2'.trans h1'⟩

instance (k : Row → ℚ × ℚ) : IsTotal Row (rk k) :=
  ⟨fun a b => lexGe_total (k a) (k b)⟩

instance (k : Row → ℚ × ℚ) : IsTrans Row (rk k) :=
  ⟨fun a b c => lexGe_trans (k a) (k b) (k c)⟩

/-- Sort rows descending by a lexicographic key, as `sort_values` with
`ascending=False` does (pandas' multi-key sort is a stable lexicographic
sort; every claim below depends only on the resulting key order). -/
def sortDescBy (k : Row → ℚ × ℚ) (rows : List Row) : List Row :=
  List.insertionSort (rk k) rows

theorem sortDescBy_sorted (k : Row → ℚ × ℚ) (rows : List Row) :
    List.Sorted (rk k) (sortDescBy k rows) :=
  List.sorted_insertionSort (rk k) rows

theorem sortDescBy_perm (k : Row → ℚ × ℚ) (rows : List Row) :
    List.Perm (sortDescBy k rows) rows :=
  List.perm_insertionSort (rk k) rows

/-- The key of `sort_values(by=["Match Score", "Opportunities"], ascending=False)`. -/
def scoreOppKey (t : Table) (r : Row) : ℚ × ℚ :=
  (colValD t "Match Score" r, colValD t "Opportunities" r)

/-- The key of `sort_values(by="Opportunities", ascending=False)`. -/
def oppKey (t : Table) (r : Row) : ℚ × ℚ :=
  (colValD t "Opportunities" r, 0)

/-- `df_copy.sort_values(by=["Match Score", "Opportunities"], ascending=False)`
(app.py line 175): each `by` label must exist, else `KeyError` — exactly the
failure recorded in the traceback pasted at the end of app.py. -/
def sortByScoreOpp (t : Table) : Except String Table :=
  match t.colIdx? "Match Score" with
  | none => .error "KeyError: Match Score"
  | some _ =>
    match t.colIdx? "Opportunities" with
    | none => .error "KeyError: Opportunities"
    | some _ => .ok ⟨t.cols, sortDescBy (scoreOppKey t) t.rows⟩

/-- `df_copy.sort_values(by="Opportunities", ascending=False)` (app.py
line 177). -/
def sortByOpp (t : Table) : Except String Table :=
  match t.colIdx? "Opportunities" with
  | none => .error "KeyError: Opportunities"
  | some _ => .ok ⟨t.cols, sortDescBy (oppKey t) t.rows⟩

/-- `recommend_internships` (app.py lines 149-179), with the library's
numeric scoring abstracted as `score`:
copy + strip, the four filters, the empty-subset early return, then either
the TF-IDF scoring branch (corpus extraction, vectorizer fit with its
empty-vocabulary check, score column assignment, two-key sort) or the
popularity-only sort, and finally `head top_n`. -/
def recommend_internships (score : ScoreFn)
    (user_skills sector state district mode : String) (top_n : Nat)
    (df : Table) : Except String Table :=
  match applyFilters sector state district mode df with
  | .error e => .error e
  | .ok t4 =>
    if t4.rows.isEmpty then .ok emptyTable
    else if pyStrip user_skills = "" then
      match sortByOpp t4 with
      | .error e => .error e
      | .ok t6 => .ok (t6.head top_n)
    else
      match corpusOf t4 with
      | .error e => .error e
      | .ok docs =>
        match fitVocabCheck docs with
        | .error e => .error e
        | .ok _ =>
          match assignColumn t4 "Match Score" ((score docs user_skills).map Cell.rat) with
          | .error e => .error e
          | .ok t5 =>
            match sortByScoreOpp t5 with
            | .error e => .error e
            | .ok t6 => .ok (t6.head top_n)

/-- `recommend_internships` as the caller sees it at line 191: the global
`df` paired through the call.  The body operates on `df.copy()`; the second
component is the catalog after the call. -/
def recommendProc (score : ScoreFn)
    (user_skills sector state district mode : String) (top_n : Nat)
    (df : Table) : Except String Table × Table :=
  (recommend_internships score user_skills sector state district mode top_n df, df)

/-- Does row `r` match the filter `pat` on column `col` of table `t`
(the boolean mask built by `str.contains`)? -/
def rowMatches (t : Table) (col pat : String) (r : Row) : Bool :=
  match t.colIdx? col with
  | some i => cellContainsCI (r.getD i .na) pat
  | none => false

theorem Table.colIdx_congr {s t : Table} (h : s.cols = t.cols) (c : String) :
    s.colIdx? c = t.colIdx? c := by
  unfold Table.colIdx?
  rw [h]

theorem rowMatches_congr {s t : Table} (h : s.cols = t.cols) (col pat : String) (r : Row) :
    rowMatches s col pat r = rowMatches t col pat r := by
  unfold rowMatches Table.colIdx?
  rw [h]

theorem colValD_congr {s t : Table} (h : s.cols = t.cols) (c : String) (r : Row) :
    colValD s c r = colValD t c r := by
  unfold colValD Table.colIdx?
  rw [h]

-- Backward characterization of one filter step: if it succeeded, the input
-- was a table, columns are unchanged, and a row survives iff it was present
-- and matches the filter whenever the filter is active.
theorem filterStep_ok_iff (x : Except String Table) (col pat : String) (t2 : Table)
    (h : filterStep x col pat = Except.ok t2) :
    ∃ t, x = Except.ok t ∧ t2.cols = t.cols ∧
      ∀ r : Row, r ∈ t2.rows ↔ r ∈ t.rows ∧ (pat ≠ "Any" → rowMatches t col pat r = true) := by
  cases x with
  | error e => exact absurd h (by simp [filterStep])
  | ok t =>
    refine ⟨t, rfl, ?_⟩
    simp only [filterStep] at h
    by_cases hp : pat = "Any"
    · rw [if_pos hp] at h
      cases h
      exact ⟨rfl, fun r => by simp [hp]⟩
    · rw [if_neg hp] at h
      cases hi : t.colIdx? col with
      | none =>
        simp only [filterContains, hi] at h
        exact Except.noConfusion h
      | some i =>
        simp only [filterContains, hi] at h
        cases h
        refine ⟨rfl, fun r => ?_⟩
        simp [List.mem_filter, rowMatches, hi, hp]

-- Forward direction: an "Any" filter or a present column makes the step
-- succeed with unchanged columns.
theorem filterStep_ok_of (t : Table) (col pat : String)
    (h : pat = "Any" ∨ (t.colIdx? col).isSome = true) :
    ∃ t2, filterStep (Except.ok t) col pat = Except.ok t2 ∧ t2.cols = t.cols := by
  by_cases hp : pat = "Any"
  · exact ⟨t, by simp [filterStep, hp], rfl⟩
  · cases hi : t.colIdx? col with
    | none =>
      rcases h with h | h
      · exact absurd h hp
      · rw [hi] at h
        simp at h
    | some i =>
      exact ⟨⟨t.cols, t.rows.filter (fun r => cellContainsCI (r.getD i .na) pat)⟩,
        by simp [filterStep, hp, filterContains, hi], rfl⟩

/-- Claim C4: when the filtered subset has zero rows, `recommend_internships`
returns the empty result (`pd.DataFrame()`), for every scoring function —
the vectorizer-fitting branch is unreachable, so no corpus is built and no
vectorizer error can occur. -/
theorem C4_empty_subset_skips_vectorizer (score : ScoreFn)
    (us se st di mo : String) (n : Nat) (df t4 : Table)
    (h4 : applyFilters se st di mo df = Except.ok t4)
    (he : t4.rows = []) :
    recommend_internships score us se st di mo n df = Except.ok emptyTable := by
  unfold recommend_internships
  rw [h4]
  simp [he]

/-- Claim C4 witness: a catalog whose single row survives no filter. -/
theorem C4_witness :
    recommend_internships zeroScore "python" "Agriculture" "Any" "Any" "Any" 5
      ⟨["Sector/Industry", "Required Skills", "Opportunities"],
       [[Cell.str "IT", Cell.str "python", Cell.int 4]]⟩ = Except.ok emptyTable :=
  C4_empty_subset_skips_vectorizer zeroScore "python" "Agriculture" "Any" "Any" "Any" 5
    _ ⟨["Sector/Industry", "Required Skills", "Opportunities"], []⟩ (by decide) rfl

/-- Claim C8: repeated calls with an identical query against an unchanged
catalog return identical results, and neither call mutates the catalog:
the call operates on `df.copy()` and the catalog component is passed
through unchanged. -/
theorem C8_determinism_no_mutation (score : ScoreFn)
    (us se st di mo : String) (n : Nat) (df : Table) :
    (recommendProc score us se st di mo n df).2 = df ∧
    recommendProc score us se st di mo n ((recommendProc score us se st di mo n df).2) =
      recommendProc score us se st di mo n df :=
  ⟨rfl, rfl⟩

/-- Claim C9: the corpus handed to the vectorizer is exactly the
`Required Skills` column coerced cell-wise to strings
(`fillna("").astype(str)`), a missing/null cell becoming the empty string —
the vectorizer never receives a null. -/
theorem C9_skills_coerced_to_string (t : Table) (docs : List String) (i : Nat)
    (hi : t.colIdx? "Required Skills" = some i)
    (h : corpusOf t = Except.ok docs) :
    docs = t.rows.map (fun r => cellToStr (r.getD i Cell.na)) ∧
    ∀ r ∈ t.rows, r.getD i Cell.na = Cell.na → cellToStr (r.getD i Cell.na) = "" := by
  unfold corpusOf at h
  rw [hi] at h
  cases h
  exact ⟨rfl, fun r _ hna => by rw [hna]; rfl⟩

/-- Claim C9 witness: a two-row table whose second `Required Skills` cell is
null coerces to `["python", ""]`. -/
theorem C9_witness :
    ["python", ""] =
      ([[Cell.str "python", Cell.int 1], [Cell.na, Cell.int 2]] : List Row).map
        (fun r => cellToStr (r.getD 0 Cell.na)) ∧
    ∀ r ∈ ([[Cell.str "python", Cell.int 1], [Cell.na, Cell.int 2]] : List Row),
      r.getD 0 Cell.na = Cell.na → cellToStr (r.getD 0 Cell.na) = "" :=
  C9_skills_coerced_to_string
    ⟨["Required Skills", "Opportunities"],
     [[Cell.str "python", Cell.int 1], [Cell.na, Cell.int 2]]⟩
    ["python", ""] 0 (by decide) rfl

/-- Claim C10: a row whose cell in the filtered column is missing/null never
survives an active filter (`na=False` in `str.contains`): it is treated as a
non-match, not as an error or a wildcard. -/
theorem C10_null_cell_never_matches (t t2 : Table) (col pat : String) (i : Nat) (r : Row)
    (hi : t.colIdx? col = some i)
    (h : filterContains t col pat = Except.ok t2)
    (hna : r.getD i Cell.na = Cell.na) :
    r ∉ t2.rows := by
  unfold filterContains at h
  rw [hi] at h
  cases h
  intro hr
  have hm := (List.mem_filter.mp hr).2
  rw [hna] at hm
  exact absurd hm (by simp [cellContainsCI])

/-- Claim C10 witness: a null `State` cell is dropped by an active state
filter even though the pattern is the empty-matching-everything string. -/
theorem C10_witness :
    [Cell.str "IT", Cell.na] ∉
      (⟨["Sector/Industry", "State"], [[Cell.str "IT", Cell.str "Karnataka"]]⟩ : Table).rows :=
  C10_null_cell_never_matches
    ⟨["Sector/Industry", "State"], [[Cell.str "IT", Cell.str "Karnataka"], [Cell.str "IT", Cell.na]]⟩
    ⟨["Sector/Industry", "State"], [[Cell.str "IT", Cell.str "Karnataka"]]⟩
    "State" "karn" 1 [Cell.str "IT", Cell.na] (by decide) (by decide) (by decide)

def c1df : Table := ⟨["Sector/Industry", "State", "District", "Required Skills", "Opportunities"],
  [[Cell.str "IT", Cell.str "Karnataka", Cell.str "Bengaluru", Cell.str "python", Cell.int 10]]⟩

/-- Claim C1 counterexample: on a one-row catalog without an
`Internship Mode` column, a query with an active mode filter makes
`recommend_internships` raise `KeyError` instead of returning an empty
subset — the claim's "never an error" fails. -/
theorem C1_counterexample :
    recommend_internships zeroScore "python" "Any" "Any" "Any" "Online" 5 c1df =
      Except.error "KeyError: Internship Mode" := by decide

/-- Claim C1 (amended): if a referenced filter column does not exist in the
loaded table while the corresponding filter is active (and the earlier
filters are inactive or their columns exist), the filter raises a `KeyError`
that aborts the whole query; it is the null cells inside an existing column,
not absent columns, that are treated as "filter never matches". -/
theorem C1_amended_missing_filter_column_raises (score : ScoreFn)
    (us sector state district mode : String) (n : Nat) (df : Table)
    (hm : mode ≠ "Any")
    (h1 : sector = "Any" ∨ ((stripCols df.copy).colIdx? "Sector/Industry").isSome = true)
    (h2 : state = "Any" ∨ ((stripCols df.copy).colIdx? "State").isSome = true)
    (h3 : district = "Any" ∨ ((stripCols df.copy).colIdx? "District").isSome = true)
    (h0 : (stripCols df.copy).colIdx? "Internship Mode" = none) :
    recommend_internships score us sector state district mode n df =
      Except.error "KeyError: Internship Mode" := by
  obtain ⟨t1, e1, c1⟩ := filterStep_ok_of (stripCols df.copy) "Sector/Industry" sector h1
  rw [← Table.colIdx_congr c1 "State"] at h2
  obtain ⟨t2, e2, c2⟩ := filterStep_ok_of t1 "State" state h2
  have c2' : t2.cols = (stripCols df.copy).cols := c2.trans c1
  rw [← Table.colIdx_congr c2' "District"] at h3
  obtain ⟨t3, e3, c3⟩ := filterStep_ok_of t2 "District" district h3
  have c3' : t3.cols = (stripCols df.copy).cols := c3.trans c2'
  have h0' : t3.colIdx? "Internship Mode" = none :=
    (Table.colIdx_congr c3' "Internship Mode").trans h0
  have hmode : filterStep (Except.ok t3) "Internship Mode" mode =
      Except.error "KeyError: Internship Mode" := by
    simp [filterStep, hm, filterContains, h0']
  unfold recommend_internships applyFilters
  rw [e1, e2, e3, hmode]

/-- Claim C1 witness: the amended claim applied to the concrete catalog of
the counterexample with a different skill query. -/
theorem C1_witness :
    recommend_internships zeroScore "sql" "Any" "Any" "Any" "Online" 5 c1df =
      Except.error "KeyError: Internship Mode" :=
  C1_amended_missing_filter_column_raises zeroScore "sql" "Any" "Any" "Any" "Online" 5 c1df
    (by decide) (Or.inl rfl) (Or.inl rfl) (Or.inl rfl) (by decide)

def c2df : Table := ⟨["Required Skills", "Opportunities"], [[Cell.str "", Cell.int 3]]⟩

/-- Claim C2 counterexample: a non-empty subset whose only `Required Skills`
value is the empty string makes the vectorizer fit raise
`ValueError: empty vocabulary` — the scores are not treated as `0.0` and the
popularity fallback is never reached. -/
theorem C2_counterexample :
    recommend_internships zeroScore "python" "Any" "Any" "Any" "Any" 5 c2df =
      Except.error "ValueError: empty vocabulary" := by decide

/-- Claim C2 (amended): for a non-empty filtered subset in which
`required_skills` is the empty string for every row, a rank with non-empty
`skill_text` fails with the vectorizer's `ValueError: empty vocabulary`
(the TF-IDF vocabulary is empty), rather than scoring every posting `0.0`
and falling back to the `opportunities` ordering. -/
theorem C2_amended_empty_skills_vocabulary_error (score : ScoreFn)
    (us se st di mo : String) (n : Nat) (df t4 : Table) (i : Nat)
    (hus : pyStrip us ≠ "")
    (h4 : applyFilters se st di mo df = Except.ok t4)
    (hne : t4.rows ≠ [])
    (hi : t4.colIdx? "Required Skills" = some i)
    (hempty : ∀ r ∈ t4.rows, r.getD i Cell.na = Cell.str "") :
    recommend_internships score us se st di mo n df =
      Except.error "ValueError: empty vocabulary" := by
  have hcorp : corpusOf t4 =
      Except.ok (t4.rows.map (fun r => cellToStr (r.getD i Cell.na))) := by
    unfold corpusOf
    rw [hi]
  have hc : ((((t4.rows.map (fun r => cellToStr (r.getD i Cell.na))).map tokenize).flatten).isEmpty) = true := by
    rw [List.isEmpty_iff, List.flatten_eq_nil_iff]
    intro l hl
    rw [List.mem_map] at hl
    obtain ⟨d, hd, rfl⟩ := hl
    rw [List.mem_map] at hd
    obtain ⟨r, hr, rfl⟩ := hd
    rw [hempty r hr]
    rfl
  have hfit : fitVocabCheck (t4.rows.map (fun r => cellToStr (r.getD i Cell.na))) =
      Except.error "ValueError: empty vocabulary" := by
    unfold fitVocabCheck
    rw [if_pos hc]
  have hie : t4.rows.isEmpty = false := List.isEmpty_eq_false.mpr hne
  simp only [recommend_internships, h4, hie, Bool.false_eq_true, if_false, if_neg hus,
    hcorp, hfit]

/-- Claim C2 witness: the amended claim applied to the counterexample's
catalog with a different skill query. -/
theorem C2_witness :
    recommend_internships zeroScore "sql" "Any" "Any" "Any" "Any" 5 c2df =
      Except.error "ValueError: empty vocabulary" :=
  C2_amended_empty_skills_vocabulary_error zeroScore "sql" "Any" "Any" "Any" "Any" 5 c2df
    ⟨["Required Skills", "Opportunities"], [[Cell.str "", Cell.int 3]]⟩ 0
    (by decide) (by decide) (by decide) (by decide) (by decide)

/-- Claim C3: in the scoring branch (non-empty `skill_text`), whenever
`recommend_internships` returns a result, its rows are sorted by
`Match Score` descending as the primary key (any earlier row's score is at
least any later row's) with `Opportunities` descending as the secondary
key: two postings with equal `Match Score` appear with the larger
`Opportunities` value first — whatever scores the vectorizer produced. -/
theorem C3_sorted_by_score_then_opportunities (score : ScoreFn)
    (us se st di mo : String) (n : Nat) (df res : Table)
    (hus : pyStrip us ≠ "")
    (hok : recommend_internships score us se st di mo n df = Except.ok res) :
    res.rows.Pairwise (fun a b =>
      colValD res "Match Score" b ≤ colValD res "Match Score" a ∧
      (colValD res "Match Score" a = colValD res "Match Score" b →
       colValD res "Opportunities" b ≤ colValD res "Opportunities" a)) := by
  unfold recommend_internships at hok
  split at hok
  · exact Except.noConfusion hok
  next t4 heq4 =>
    by_cases hemp : t4.rows.isEmpty
    · rw [if_pos hemp] at hok
      cases hok
      exact List.Pairwise.nil
    · rw [if_neg hemp, if_neg hus] at hok
      split at hok
      · exact Except.noConfusion hok
      next docs heqc =>
        split at hok
        · exact Except.noConfusion hok
        next u heqf =>
          split at hok
          · exact Except.noConfusion hok
          next t5 heqa =>
            split at hok
            · exact Except.noConfusion hok
            next t6 heqs =>
              cases hok
              unfold sortByScoreOpp at heqs
              split at heqs
              · exact Except.noConfusion heqs
              · split at heqs
                · exact Except.noConfusion heqs
                · cases heqs
                  have hs : List.Pairwise (rk (scoreOppKey t5))
                      ((sortDescBy (scoreOppKey t5) t5.rows).take n) :=
                    List.Pairwise.sublist (List.take_sublist n _)
                      (sortDescBy_sorted (scoreOppKey t5) t5.rows)
                  refine List.Pairwise.imp ?_ hs
                  intro a b hab
                  rcases hab with h | ⟨h, h'⟩
                  · exact ⟨le_of_lt h, fun hms => absurd hms (ne_of_lt h).symm⟩
                  · exact ⟨le_of_eq h.symm, fun _ => h'⟩

def indicatorScore : ScoreFn :=
  fun docs q => docs.map (fun d => if substrCI q d then (1 : ℚ) else 0)

def c3df : Table := ⟨["Required Skills", "Opportunities"],
  [[Cell.str "java", Cell.int 7], [Cell.str "python", Cell.int 3],
   [Cell.str "java", Cell.int 50]]⟩

def c3res : Table := ⟨["Required Skills", "Opportunities", "Match Score"],
  [[Cell.str "java", Cell.int 50, Cell.rat 1],
   [Cell.str "java", Cell.int 7, Cell.rat 1],
   [Cell.str "python", Cell.int 3, Cell.rat 0]]⟩

/-- Claim C3 witness: with an admissible scoring function giving the two
`java` rows equal scores and the `python` row a lower one, scores appear
descending and within the tied pair the row with 50 opportunities precedes
the one with 7. -/
theorem C3_witness :
    c3res.rows.Pairwise (fun a b =>
      colValD c3res "Match Score" b ≤ colValD c3res "Match Score" a ∧
      (colValD c3res "Match Score" a = colValD c3res "Match Score" b →
       colValD c3res "Opportunities" b ≤ colValD c3res "Opportunities" a)) :=
  C3_sorted_by_score_then_opportunities indicatorScore "java" "Any" "Any" "Any" "Any" 5
    c3df c3res (by decide) (by decide)

def c5df : Table := ⟨["Required Skills"], [[Cell.str "python sql"]]⟩

/-- Claim C5 (code bug): on a catalog without an `Opportunities` column, the
ranking step does not resolve popularity to 0 — `sort_values` raises
`KeyError`, exactly the deployed failure recorded in the traceback pasted at
the end of app.py (line 175, `KeyError` from
`sort_values(by=["Match Score", "Opportunities"], ascending=False)`). -/
theorem C5_missing_opportunities_keyerror :
    recommend_internships zeroScore "python" "Any" "Any" "Any" "Any" 5 c5df =
      Except.error "KeyError: Opportunities" := by decide

/-- Claim C7: with blank `skill_text` and a non-empty subset, scoring is
skipped (the result holds for every scoring function and carries no
`Match Score` column): the result is the first `top_n` rows of the subset
sorted purely by `Opportunities` descending — a permutation of the subset
truncated to `top_n`, pairwise ordered by descending opportunities. -/
theorem C7_empty_skills_popularity_order (score : ScoreFn)
    (us se st di mo : String) (n : Nat) (df t4 : Table) (j : Nat)
    (hus : pyStrip us = "")
    (h4 : applyFilters se st di mo df = Except.ok t4)
    (hne : t4.rows ≠ [])
    (hopp : t4.colIdx? "Opportunities" = some j) :
    recommend_internships score us se st di mo n df =
      Except.ok ⟨t4.cols, (sortDescBy (oppKey t4) t4.rows).take n⟩ ∧
    List.Perm (sortDescBy (oppKey t4) t4.rows) t4.rows ∧
    ((sortDescBy (oppKey t4) t4.rows).take n).Pairwise
      (fun a b => colValD t4 "Opportunities" b ≤ colValD t4 "Opportunities" a) := by
  have hie : t4.rows.isEmpty = false := List.isEmpty_eq_false.mpr hne
  have hsort : sortByOpp t4 = Except.ok ⟨t4.cols, sortDescBy (oppKey t4) t4.rows⟩ := by
    unfold sortByOpp
    rw [hopp]
  refine ⟨?_, sortDescBy_perm _ _, ?_⟩
  · simp only [recommend_internships, h4, hie, Bool.false_eq_true, if_false, if_pos hus,
      hsort]
    rfl
  · have hs : List.Pairwise (rk (oppKey t4)) ((sortDescBy (oppKey t4) t4.rows).take n) :=
      List.Pairwise.sublist (List.take_sublist n _) (sortDescBy_sorted (oppKey t4) t4.rows)
    refine List.Pairwise.imp ?_ hs
    intro a b hab
    rcases hab with h | ⟨h, h'⟩
    · exact le_of_lt h
    · exact le_of_eq h.symm

def c7df : Table := ⟨["Required Skills", "Opportunities"],
  [[Cell.str "java", Cell.int 7], [Cell.str "python", Cell.int 50]]⟩

/-- Claim C7 witness: a whitespace-only skill query on a two-row catalog
returns the single most popular posting, ordered by opportunities only. -/
theorem C7_witness :
    recommend_internships zeroScore "   " "Any" "Any" "Any" "Any" 1 c7df =
      Except.ok ⟨c7df.cols, (sortDescBy (oppKey c7df) c7df.rows).take 1⟩ ∧
    List.Perm (sortDescBy (oppKey c7df) c7df.rows) c7df.rows ∧
    ((sortDescBy (oppKey c7df) c7df.rows).take 1).Pairwise
      (fun a b => colValD c7df "Opportunities" b ≤ colValD c7df "Opportunities" a) :=
  C7_empty_skills_popularity_order zeroScore "   " "Any" "Any" "Any" "Any" 1 c7df c7df 1
    (by decide) (by decide) (by decide) (by decide)

/-- Claim C6: each non-"Any" categorical field is applied as a
case-insensitive substring filter against its column, conjunctively (AND)
in the fixed order sector, state, district, mode: a row lies in the filtered
subset iff it is a catalog row and every active filter's value occurs
case-insensitively in the row's corresponding cell.  The `regexLiteral`
hypotheses confine the statement to patterns on which pandas' regex-based
`str.contains` coincides with plain substring matching. -/
theorem C6_conjunctive_substring_filters (sector state district mode : String)
    (df t2 : Table) (r : Row)
    (_hs : regexLiteral sector = true) (_hst : regexLiteral state = true)
    (_hd : regexLiteral district = true) (_hm : regexLiteral mode = true)
    (h : applyFilters sector state district mode df = Except.ok t2) :
    r ∈ t2.rows ↔
      r ∈ (stripCols df.copy).rows ∧
      (sector ≠ "Any" → rowMatches (stripCols df.copy) "Sector/Industry" sector r = true) ∧
      (state ≠ "Any" → rowMatches (stripCols df.copy) "State" state r = true) ∧
      (district ≠ "Any" → rowMatches (stripCols df.copy) "District" district r = true) ∧
      (mode ≠ "Any" → rowMatches (stripCols df.copy) "Internship Mode" mode r = true) := by
  unfold applyFilters at h
  obtain ⟨a, ea, ca, ma⟩ := filterStep_ok_iff _ _ _ _ h
  obtain ⟨b, eb, cb, mb⟩ := filterStep_ok_iff _ _ _ _ ea
  obtain ⟨c, ec, cc, mc⟩ := filterStep_ok_iff _ _ _ _ eb
  obtain ⟨d, ed, cd, md⟩ := filterStep_ok_iff _ _ _ _ ec
  injection ed with ed
  subst ed
  rw [ma r, mb r, mc r, md r]
  rw [rowMatches_congr (cb.trans (cc.trans cd)) "Internship Mode" mode r,
      rowMatches_congr (cc.trans cd) "District" district r,
      rowMatches_congr cd "State" state r]
  tauto

def c6df : Table := ⟨["Sector/Industry", "Internship Mode"],
  [[Cell.str "IT Services", Cell.str "Offline"], [Cell.str "Finance", Cell.str "Offline"]]⟩

def c6row : Row := [Cell.str "IT Services", Cell.str "Offline"]

def c6res : Table := ⟨["Sector/Industry", "Internship Mode"],
  [[Cell.str "IT Services", Cell.str "Offline"]]⟩

/-- Claim C6 witness: with active sector filter `"it"` and mode filter
`"off"`, the surviving row is exactly the one matching both substrings
case-insensitively. -/
theorem C6_witness :
    c6row ∈ c6res.rows ↔
      c6row ∈ (stripCols c6df.copy).rows ∧
      ("it" ≠ "Any" → rowMatches (stripCols c6df.copy) "Sector/Industry" "it" c6row = true) ∧
      ("Any" ≠ "Any" → rowMatches (stripCols c6df.copy) "State" "Any" c6row = true) ∧
      ("Any" ≠ "Any" → rowMatches (stripCols c6df.copy) "District" "Any" c6row = true) ∧
      ("off" ≠ "Any" → rowMatches (stripCols c6df.copy) "Internship Mode" "off" c6row = true) :=
  C6_conjunctive_substring_filters "it" "Any" "Any" "off" c6df c6res c6row
    (by decide) (by decide) (by decide) (by decide) (by decide)
